import Mathlib

/-!
Verification of the session/transaction state storage engine of
`@auth0/auth0-hono` (`src/session`): the expiration policy, the cookie
chunker, the stateless and stateful session stores and the cookie
transaction store.  The embedding follows the `CookieHandler`-based store
variants, which are the ones wired up by `src/lib/client.ts`
(`new StatelessStateStore(..., new HonoCookieHandler())`, etc.); the
encryption boundary, the request cookie state and the external payload
store are abstract collaborators, passed in explicitly.  Each store
operation is modelled as a pure function returning the ordered list of its
observable effects (cookie writes/deletes and external-store calls), or an
error, mirroring the order in which the TypeScript code performs them.
-/

/-- Models the cookie attributes passed to the cookie handler
(`CookieSerializeOptions`); `secure = none` models an absent `secure`
attribute. -/
structure CookieOpts where
  httpOnly : Bool
  sameSite : String
  path : String
  secure : Option Bool
  maxAge : Int
deriving Repr, DecidableEq

/-- Models `SessionConfiguration` with the defaults of the
`AbstractSessionStore` constructor already applied. -/
structure SessionConfig where
  rolling : Bool
  absoluteDuration : Int
  inactivityDuration : Int
deriving Repr, DecidableEq

/-- Models the `AbstractSessionStore` constructor: `options.rolling ?? true`,
`options.absoluteDuration ?? 60 * 60 * 24 * 3`,
`options.inactivityDuration ?? 60 * 60 * 24 * 1`. -/
def mkSessionConfig (rolling : Option Bool) (absoluteDuration inactivityDuration : Option Int) :
    SessionConfig :=
  { rolling := rolling.getD true
    absoluteDuration := absoluteDuration.getD (60 * 60 * 24 * 3)
    inactivityDuration := inactivityDuration.getD (60 * 60 * 24 * 1) }

/-- Models `StateData.internal`: the part of the session payload the store
itself reads. -/
structure StateDataInternal where
  createdAt : Int
deriving Repr, DecidableEq

/-- Models the session payload (`StateData`): opaque to the store apart from
`internal.createdAt`; the remainder is an opaque string. -/
structure StateData where
  internal : StateDataInternal
  payload : String
deriving Repr, DecidableEq

/-- Models `LogoutTokenClaims` as supplied to `deleteByLogoutToken`. -/
structure LogoutTokenClaims where
  sub : Option String
  sid : Option String
deriving Repr, DecidableEq

/-- Observable effects of one store operation, listed in execution order:
cookie writes and deletes through the cookie handler, and calls on the
external payload store. -/
inductive Event where
  | setCookie (name value : String) (opts : CookieOpts)
  | deleteCookie (name : String)
  | storeSet (sessionId : String) (payload : StateData)
  | storeGet (sessionId : String)
  | storeDelete (sessionId : String)
deriving Repr, DecidableEq

/-- Tests whether an event is a cookie write. -/
def Event.isSetCookie : Event → Bool
  | Event.setCookie _ _ _ => true
  | _ => false

/-- Embeds `AbstractSessionStore.calculateMaxAge`; `now` is the wall clock
`(Date.now() / 1000) | 0`, passed explicitly. -/
def calculateMaxAge (cfg : SessionConfig) (now createdAt : Int) : Int :=
  if !cfg.rolling then
    cfg.absoluteDuration
  else
    let expiresAt := min (now + cfg.inactivityDuration) (createdAt + cfg.absoluteDuration)
    let maxAge := expiresAt - now
    if maxAge > 0 then maxAge else 0

/-- Fixed chunk size of the stateless store (`const chunkSize = 3072`). -/
def chunkSize : Nat := 3072

/-- Embeds `Math.ceil(a / b)` for natural `a` and positive `b`. -/
def ceilDiv (a b : Nat) : Nat := (a + b - 1) / b

/-- Name of the i-th chunk cookie (backtick-template `identifier.i`). -/
def chunkName (identifier : String) (i : Nat) : String :=
  identifier ++ (".") ++ toString i

/-- Embeds `encryptedStateData.substring(i * chunkSize, (i + 1) * chunkSize)`
over the character sequence of the string. -/
def chunkValue (s : String) (i : Nat) : String :=
  ⟨(s.data.drop (i * chunkSize)).take chunkSize⟩

/-- Embeds `Array.prototype.join("")` on a list of strings. -/
def strConcat (l : List String) : String :=
  ⟨(l.map String.data).flatten⟩

/-- Error message thrown by `StatelessStateStore.set` when the encrypted
payload needs more than 10 chunks. -/
def sizeLimitMessage (identifier : String) : String :=
  ("State data for identifier \"") ++ identifier ++
    ("\" exceeds the maximum size of 30720 characters when encrypted. Consider using a different storage method.")

/-- Embeds `StatelessStateStore.set` (the `CookieHandler` variant wired by
`lib/client.ts`): compute the max age, encrypt with the embedded expiration
`Math.floor(Date.now() / 1000 + maxAge)` (= `now + maxAge` for integral
inputs), split into chunks, fail when more than 10 chunks are needed, and
otherwise for each index `0 ≤ i < 10` either write chunk `i` or delete the
chunk cookie of that index.  `encrypt` is the abstract encryption
boundary. -/
def statelessSet (cfg : SessionConfig) (cookieSameSite : Option String)
    (cookieSecure : Option Bool) (encrypt : String → StateData → Int → String)
    (now : Int) (identifier : String) (stateData : StateData) :
    Except String (List Event) :=
  let maxAge := calculateMaxAge cfg now stateData.internal.createdAt
  let cookieOpts : CookieOpts :=
    { httpOnly := true
      sameSite := cookieSameSite.getD ("lax")
      path := ("/")
      secure := some (cookieSecure.getD true)
      maxAge := maxAge }
  let expiration := now + maxAge
  let encryptedStateData := encrypt identifier stateData expiration
  let chunkCount := ceilDiv encryptedStateData.length chunkSize
  if chunkCount > 10 then
    Except.error (sizeLimitMessage identifier)
  else
    Except.ok ((List.range 10).map fun i =>
      if i < chunkCount then
        Event.setCookie (chunkName identifier i) (chunkValue encryptedStateData i) cookieOpts
      else
        Event.deleteCookie (chunkName identifier i))

/-- The string handed to decryption by `StatelessStateStore.get`: the values
of the fixed cookie names `identifier.0` … `identifier.9` joined in index
order (`Array.prototype.join` renders a missing value as the empty
string). -/
def statelessGetEncrypted (getCookie : String → Option String) (identifier : String) : String :=
  strConcat ((List.range 10).map fun i => (getCookie (chunkName identifier i)).getD (""))

/-- Embeds `StatelessStateStore.get`: reassemble the chunk cookies; when the
result is nonempty (truthy) decrypt it, otherwise report no session. -/
def statelessGet (decrypt : String → String → Except String StateData)
    (getCookie : String → Option String) (identifier : String) :
    Except String (Option StateData) :=
  let encryptedStateData := statelessGetEncrypted getCookie identifier
  if encryptedStateData = ("") then Except.ok none
  else (decrypt identifier encryptedStateData).map some

/-- Embeds `StatelessStateStore.delete`: delete the ten chunk cookies. -/
def statelessDelete (identifier : String) : List Event :=
  (List.range 10).map fun i => Event.deleteCookie (chunkName identifier i)

/-- Message of the `BackchannelLogoutError` thrown by the stateless store. -/
def backchannelLogoutMessage : String :=
  ("Backchannel logout is not available when using Stateless Storage. Use Stateful Storage by providing a `sessionStore`")

/-- Embeds `StatelessStateStore.deleteByLogoutToken`: unconditionally throws
`BackchannelLogoutError` before touching any cookie. -/
def statelessDeleteByLogoutToken (_claims : LogoutTokenClaims) :
    Except String (List Event) :=
  Except.error backchannelLogoutMessage

/-- Collaborators of `StatefulStateStore` for one operation: the request
cookie state, the encryption boundary for the session handle (`decrypt`
returns the embedded `id`, or the propagated decryption error), the
current lookup state of the external payload store, and the sequence of ids
`generateId()` yields (`gen k` is the k-th call within the operation). -/
structure StatefulEnv where
  getCookie : String → Option String
  decrypt : String → String → Except String String
  encrypt : String → String → Int → String
  storeGet : String → Option StateData
  gen : Nat → String

/-- Embeds `StatefulStateStore.getSessionId`: a missing or empty handle
cookie is falsy and yields no id; otherwise the handle is decrypted
(propagating any failure) and its `id` field returned. -/
def getSessionId (env : StatefulEnv) (identifier : String) :
    Except String (Option String) :=
  match env.getCookie identifier with
  | none => Except.ok none
  | some cookieValue =>
    if cookieValue = ("") then Except.ok none
    else (env.decrypt identifier cookieValue).map some

/-- Embeds `StatefulStateStore.set`.  JS string truthiness makes the empty
string count as no session id.  With `removeIfExists` and an existing id,
the old id is deleted from the external store and a fresh id minted; a
still-missing id is then minted; finally the payload is written to the
external store under the id and the encrypted handle cookie is set. -/
def statefulSet (cfg : SessionConfig) (env : StatefulEnv)
    (cookieSameSite : Option String) (cookieSecure : Option Bool) (now : Int)
    (identifier : String) (stateData : StateData) (removeIfExists : Bool) :
    Except String (List Event) :=
  match getSessionId env identifier with
  | Except.error e => Except.error e
  | Except.ok r =>
    let sessionId0 := r.getD ("")
    let step : String × List Event × Nat :=
      if sessionId0 ≠ ("") ∧ removeIfExists then
        (env.gen 0, [Event.storeDelete sessionId0], 1)
      else
        (sessionId0, [], 0)
    let sessionId := if step.1 = ("") then env.gen step.2.2 else step.1
    let maxAge := calculateMaxAge cfg now stateData.internal.createdAt
    let cookieOpts : CookieOpts :=
      { httpOnly := true
        sameSite := cookieSameSite.getD ("lax")
        path := ("/")
        secure := some (cookieSecure.getD true)
        maxAge := maxAge }
    let expiration := now + maxAge
    let encryptedStateData := env.encrypt identifier sessionId expiration
    Except.ok (step.2.1 ++
      [Event.storeSet sessionId stateData,
       Event.setCookie identifier encryptedStateData cookieOpts])

/-- Embeds `StatefulStateStore.get`: resolve the session id from the handle
cookie; when present, fetch the payload from the external store; when the
store has nothing for the id, delete the dangling handle cookie and report
no session.  Returns the result together with the effect trace. -/
def statefulGet (env : StatefulEnv) (identifier : String) :
    Except String (Option StateData × List Event) :=
  match getSessionId env identifier with
  | Except.error e => Except.error e
  | Except.ok r =>
    let sessionId := r.getD ("")
    if sessionId = ("") then Except.ok (none, [])
    else
      match env.storeGet sessionId with
      | none => Except.ok (none, [Event.storeGet sessionId, Event.deleteCookie identifier])
      | some stateData => Except.ok (some stateData, [Event.storeGet sessionId])

/-- Embeds `StatefulStateStore.delete`: delete the external-store entry when
an id resolves, and delete the handle cookie regardless. -/
def statefulDelete (env : StatefulEnv) (identifier : String) :
    Except String (List Event) :=
  match getSessionId env identifier with
  | Except.error e => Except.error e
  | Except.ok r =>
    let sessionId := r.getD ("")
    Except.ok ((if sessionId = ("") then [] else [Event.storeDelete sessionId]) ++
      [Event.deleteCookie identifier])

/-- Embeds `CookieTransactionStore.set` (the `CookieHandler` variant wired by
`lib/client.ts`): fixed `maxAge = 60 * 60`, fixed cookie attributes, embedded
expiration `Math.floor(Date.now() / 1000 + maxAge)` (= `now + maxAge` for
integral inputs), one cookie write.  The session expiration configuration is
accepted as an argument only so independence from it can be stated: the
class never reads it. -/
def transactionSet (encrypt : String → String → Int → String) (now : Int)
    (identifier transactionData : String) (_cfg : SessionConfig) : List Event :=
  let maxAge : Int := 60 * 60
  let cookieOpts : CookieOpts :=
    { httpOnly := true
      sameSite := ("lax")
      path := ("/")
      secure := none
      maxAge := maxAge }
  let expiration := now + maxAge
  [Event.setCookie identifier (encrypt identifier transactionData expiration) cookieOpts]

/-- Effect of one event on the response-side cookie state (a map from cookie
name to value); external-store events leave cookies unchanged. -/
def applyEvent (m : String → Option String) : Event → (String → Option String)
  | Event.setCookie n v _ => fun k => if k = n then some v else m k
  | Event.deleteCookie n => fun k => if k = n then none else m k
  | _ => m

/-- Folds a trace of events over a cookie state, in order. -/
def applyEvents (evs : List Event) (m : String → Option String) :
    String → Option String :=
  evs.foldl applyEvent m

/-- Looks a cookie name up in an association list of request cookies. -/
def lookupCookie (cookies : List (String × String)) (name : String) :
    Option String :=
  (cookies.find? fun p => p.1 == name).map Prod.snd

/-- Tests whether a string is a nonempty run of decimal digits. -/
def isDigits (s : String) : Bool :=
  !s.data.isEmpty && s.data.all Char.isDigit

/-- Numeric value of a digit string. -/
def digitsToNat (s : String) : Nat :=
  s.data.foldl (fun a c => a * 10 + (c.toNat - 48)) 0

/-- Modelled from the spec: the chunk index of a cookie name of the form
`identifier + "." + <digits>`, following the wording of the claimed `get`
enumeration; `none` when the name does not match. -/
def specChunkIndex (identifier name : String) : Option Nat :=
  let pre := identifier ++ (".")
  if pre.data.isPrefixOf name.data then
    let suffix : String := ⟨name.data.drop pre.length⟩
    if isDigits suffix then some (digitsToNat suffix) else none
  else none

/-- Insertion into a list of (index, value) pairs sorted by index. -/
def insertByIndex (p : Nat × String) : List (Nat × String) → List (Nat × String)
  | [] => [p]
  | q :: t => if p.1 ≤ q.1 then p :: q :: t else q :: insertByIndex p t

/-- Insertion sort of (index, value) pairs by ascending index. -/
def sortByIndex (l : List (Nat × String)) : List (Nat × String) :=
  l.foldr insertByIndex []

/-- Modelled from the spec: the concatenation the claim says is handed to
decryption by the stateless `get` — enumerate the request cookies whose
names match `identifier + "." + <digits>`, sort them numerically by index,
and concatenate the values in that order.  Stated only for comparison with
`statelessGetEncrypted`, which embeds the code. -/
def specOrderedChunkConcat (cookies : List (String × String)) (identifier : String) : String :=
  strConcat ((sortByIndex (cookies.filterMap fun p =>
    (specChunkIndex identifier p.1).map fun i => (i, p.2))).map Prod.snd)

/-- Lower bound justifying that `ceilDiv a b` chunks of size `b` cover `a`
elements. -/
theorem le_ceilDiv_mul (a b : Nat) (hb : 0 < b) : a ≤ ceilDiv a b * b := by
  unfold ceilDiv
  rcases Nat.eq_zero_or_pos a with h | h
  · simp [h]
  · have h1 := Nat.div_add_mod (a + b - 1) b
    have h2 : (a + b - 1) % b < b := Nat.mod_lt _ hb
    rw [Nat.mul_comm]
    omega

/-- Characterizes `ceilDiv a b ≤ k` as `a ≤ k * b` for positive `b`. -/
theorem ceilDiv_le_iff (a b k : Nat) (hb : 0 < b) : ceilDiv a b ≤ k ↔ a ≤ k * b := by
  unfold ceilDiv
  rw [Nat.div_le_iff_le_mul_add_pred hb, Nat.mul_comm b k]
  omega

/-- Flattening the first `n` fixed-size pieces of a list yields its first
`n * cs` elements. -/
theorem chunks_flatten (cs : Nat) (l : List Char) (n : Nat) :
    ((List.range n).map (fun i => (l.drop (i * cs)).take cs)).flatten = l.take (n * cs) := by
  induction n with
  | zero => simp
  | succ n ih =>
    rw [List.range_succ, List.map_append, List.flatten_append]
    simp only [List.map_cons, List.map_nil, List.flatten_cons, List.flatten_nil,
      List.append_nil]
    rw [ih, Nat.succ_mul, List.take_add]

/-- C3: with rolling enabled, `calculateMaxAge` equals
`max 0 (min (now + inactivityDuration) (createdAt + absoluteDuration) - now)`;
for every `createdAt ≤ now` (with nonnegative configured durations) the
result is at most `absoluteDuration` and at most `inactivityDuration`, and
it is exactly 0 whenever `createdAt + absoluteDuration ≤ now`. -/
theorem calculateMaxAge_rolling_correct (cfg : SessionConfig) (now createdAt : Int)
    (hroll : cfg.rolling = true) :
    calculateMaxAge cfg now createdAt =
      max 0 (min (now + cfg.inactivityDuration) (createdAt + cfg.absoluteDuration) - now) ∧
    (createdAt ≤ now → 0 ≤ cfg.absoluteDuration → 0 ≤ cfg.inactivityDuration →
      calculateMaxAge cfg now createdAt ≤ cfg.absoluteDuration ∧
      calculateMaxAge cfg now createdAt ≤ cfg.inactivityDuration) ∧
    (createdAt + cfg.absoluteDuration ≤ now → calculateMaxAge cfg now createdAt = 0) := by
  have h : calculateMaxAge cfg now createdAt =
      (if min (now + cfg.inactivityDuration) (createdAt + cfg.absoluteDuration) - now > 0
        then min (now + cfg.inactivityDuration) (createdAt + cfg.absoluteDuration) - now
        else 0) := by
    simp [calculateMaxAge, hroll]
  refine ⟨?_, fun h1 h2 h3 => ⟨?_, ?_⟩, fun h1 => ?_⟩ <;> rw [h] <;> split <;> omega

/-- Witness for C3: the spec's concrete scenario — default durations,
session created at 1600000000, evaluated 25 hours later. -/
theorem calculateMaxAge_rolling_correct_witness :
    calculateMaxAge ⟨true, 259200, 86400⟩ 1600090000 1600000000 =
      max 0 (min (1600090000 + 86400) (1600000000 + 259200) - 1600090000) :=
  (calculateMaxAge_rolling_correct ⟨true, 259200, 86400⟩ 1600090000 1600000000 rfl).1

/-- C4: splitting any string into fixed 3072-character chunks (chunk `i`
being the substring `[i * 3072, (i + 1) * 3072)`) and concatenating the
chunk values in ascending index order reproduces the string exactly. -/
theorem chunk_join_roundtrip (s : String) :
    strConcat ((List.range (ceilDiv s.length chunkSize)).map (chunkValue s)) = s := by
  obtain ⟨l⟩ := s
  show String.mk _ = String.mk l
  congr 1
  rw [List.map_map]
  have hmap : (String.data ∘ chunkValue ⟨l⟩) =
      fun i => (l.drop (i * chunkSize)).take chunkSize := rfl
  rw [hmap, chunks_flatten]
  exact List.take_of_length_le (le_ceilDiv_mul l.length chunkSize (by decide))

/-- C8: the stateless `deleteByLogoutToken` fails with the dedicated
backchannel-logout error for every claims argument; it never succeeds and
produces no cookie effect. -/
theorem stateless_deleteByLogoutToken_always_fails (claims : LogoutTokenClaims) :
    statelessDeleteByLogoutToken claims = Except.error backchannelLogoutMessage ∧
    ∀ evs : List Event, statelessDeleteByLogoutToken claims ≠ Except.ok evs := by
  exact ⟨rfl, fun evs h => by simp [statelessDeleteByLogoutToken] at h⟩

/-- C9: the transaction store's `set` writes exactly one cookie with max-age
3600 seconds, httpOnly, sameSite lax and path "/", embeds the expiration
`now + 3600` in the encryption envelope, and its result is independent of
the session expiration configuration. -/
theorem transaction_set_fixed_policy (encrypt : String → String → Int → String)
    (now : Int) (identifier transactionData : String) (cfg : SessionConfig) :
    transactionSet encrypt now identifier transactionData cfg =
      [Event.setCookie identifier (encrypt identifier transactionData (now + 3600))
        { httpOnly := true, sameSite := ("lax"), path := ("/"),
          secure := none, maxAge := 3600 }] ∧
    ∀ cfg' : SessionConfig, transactionSet encrypt now identifier transactionData cfg =
      transactionSet encrypt now identifier transactionData cfg' := by
  exact ⟨rfl, fun _ => rfl⟩

/-- Evaluates `Event.isSetCookie` on the branch structure used by
`statelessSet`. -/
theorem isSetCookie_ite (c : Prop) [Decidable c] (a b : String) (o : CookieOpts)
    (n : String) :
    Event.isSetCookie (if c then Event.setCookie a b o else Event.deleteCookie n) =
      decide c := by
  split <;> simp_all [Event.isSetCookie]

/-- Counts the indices below `cc` in the fixed scan window of width 10. -/
theorem range10_count_lt (cc : Nat) (hcc : cc ≤ 10) :
    ((List.range 10).filter (fun i => decide (i < cc))).length = cc := by
  interval_cases cc <;> decide

/-- C2: in a stateless `set` the chunk count is `ceil(length / 3072)` of the
encrypted string; when the length exceeds 30720 (count > 10) the call fails
with the size-limit error and writes nothing, and when the length is at most
30720 — including a count of exactly 10 — it succeeds and writes exactly
`ceil(length / 3072)` chunk cookies. -/
theorem stateless_set_chunk_limit (cfg : SessionConfig) (ss : Option String)
    (sec : Option Bool) (encrypt : String → StateData → Int → String) (now : Int)
    (identifier : String) (sd : StateData) (L : Nat)
    (hL : (encrypt identifier sd
      (now + calculateMaxAge cfg now sd.internal.createdAt)).length = L) :
    (L > 30720 →
      statelessSet cfg ss sec encrypt now identifier sd =
        Except.error (sizeLimitMessage identifier)) ∧
    (L ≤ 30720 →
      (∃ evs, statelessSet cfg ss sec encrypt now identifier sd = Except.ok evs) ∧
      ceilDiv L chunkSize ≤ 10 ∧
      ∀ evs, statelessSet cfg ss sec encrypt now identifier sd = Except.ok evs →
        (evs.filter Event.isSetCookie).length = ceilDiv L chunkSize) := by
  constructor
  · intro hgt
    have hcc : ceilDiv L chunkSize > 10 := by
      rw [gt_iff_lt, ← Nat.not_le, ceilDiv_le_iff L chunkSize 10 (by decide)]
      unfold chunkSize
      omega
    simp only [statelessSet, hL]
    rw [if_pos hcc]
  · intro hle
    have h10 : ceilDiv L chunkSize ≤ 10 := by
      rw [ceilDiv_le_iff L chunkSize 10 (by decide)]
      unfold chunkSize
      omega
    have hcc : ¬ (ceilDiv L chunkSize > 10) := by omega
    refine ⟨?_, h10, ?_⟩
    · simp only [statelessSet, hL]
      rw [if_neg hcc]
      exact ⟨_, rfl⟩
    · intro evs hevs
      simp only [statelessSet, hL] at hevs
      rw [if_neg hcc] at hevs
      rw [Except.ok.injEq] at hevs
      subst hevs
      rw [List.filter_map, List.length_map]
      rw [List.filter_congr (fun a _ => by
        simp only [Function.comp]
        exact isSetCookie_ite _ _ _ _ _)]
      exact range10_count_lt _ h10

/-- Witness for C2: an encrypted payload of 30721 characters is rejected
with the size-limit error, and one of exactly 30720 characters succeeds
with exactly 10 chunk-cookie writes. -/
theorem stateless_set_chunk_limit_witness :
    (statelessSet ⟨true, 259200, 86400⟩ none none
        (fun _ _ _ => String.mk (List.replicate 30721 'x')) 0 ("s") ⟨⟨0⟩, ("")⟩ =
      Except.error (sizeLimitMessage ("s"))) ∧
    (∃ evs, statelessSet ⟨true, 259200, 86400⟩ none none
        (fun _ _ _ => String.mk (List.replicate 30720 'x')) 0 ("s") ⟨⟨0⟩, ("")⟩ =
      Except.ok evs) := by
  constructor
  · exact (stateless_set_chunk_limit ⟨true, 259200, 86400⟩ none none
      (fun _ _ _ => String.mk (List.replicate 30721 'x')) 0 ("s") ⟨⟨0⟩, ("")⟩ 30721
      (by show (List.replicate 30721 'x').length = 30721; rw [List.length_replicate])).1
      (by omega)
  · exact ((stateless_set_chunk_limit ⟨true, 259200, 86400⟩ none none
      (fun _ _ _ => String.mk (List.replicate 30720 'x')) 0 ("s") ⟨⟨0⟩, ("")⟩ 30720
      (by show (List.replicate 30720 'x').length = 30720; rw [List.length_replicate])).2
      (by omega)).1

/-- Decimal renderings of indices below the scan width are distinct. -/
theorem toString_inj_lt10 : ∀ i, i < 10 → ∀ j, j < 10 → toString i = toString j → i = j := by
  decide

/-- Chunk cookie names are distinct within the scan window. -/
theorem chunkName_inj (identifier : String) {i j : Nat} (hi : i < 10) (hj : j < 10)
    (h : chunkName identifier i = chunkName identifier j) : i = j := by
  have hdata : (identifier ++ (".")).data ++ (toString i).data =
      (identifier ++ (".")).data ++ (toString j).data := by
    have h' := congrArg String.data h
    simpa [chunkName, String.data_append, List.append_assoc] using h'
  exact toString_inj_lt10 i hi j hj (String.ext (List.append_cancel_left hdata))

/-- Replays the chunk-window write/delete pattern of `statelessSet` over a
cookie state: within the window, chunk cookie `i` ends holding the new value
when `i < cc` and absent otherwise. -/
theorem applyEvents_chunk_window (identifier : String) (cc : Nat) (vals : Nat → String)
    (opts : CookieOpts) (m : String → Option String) :
    ∀ n, n ≤ 10 → ∀ i, i < n →
      applyEvents ((List.range n).map fun j =>
          if j < cc then Event.setCookie (chunkName identifier j) (vals j) opts
          else Event.deleteCookie (chunkName identifier j)) m (chunkName identifier i) =
        if i < cc then some (vals i) else none := by
  intro n
  induction n with
  | zero => intro _ i hi; omega
  | succ n ih =>
    intro hn i hi
    rw [List.range_succ, List.map_append]
    unfold applyEvents
    rw [List.foldl_append]
    simp only [List.map_cons, List.map_nil, List.foldl_cons, List.foldl_nil]
    rcases Nat.lt_or_ge i n with hlt | hge
    · have hne : chunkName identifier i ≠ chunkName identifier n := by
        intro he
        exact absurd (chunkName_inj identifier (by omega) (by omega) he) (by omega)
      rcases Nat.lt_or_ge n cc with hb | hb
      · rw [if_pos hb]
        show (if chunkName identifier i = chunkName identifier n then some (vals n)
          else applyEvents _ m (chunkName identifier i)) = _
        rw [if_neg hne]
        exact ih (by omega) i hlt
      · rw [if_neg (by omega : ¬ n < cc)]
        show (if chunkName identifier i = chunkName identifier n then none
          else applyEvents _ m (chunkName identifier i)) = _
        rw [if_neg hne]
        exact ih (by omega) i hlt
    · have hei : i = n := by omega
      subst hei
      rcases Nat.lt_or_ge i cc with hb | hb
      · rw [if_pos hb, if_pos hb]
        show (if chunkName identifier i = chunkName identifier i then some (vals i)
          else applyEvents _ m (chunkName identifier i)) = some (vals i)
        rw [if_pos rfl]
      · rw [if_neg (by omega : ¬ i < cc), if_neg (by omega : ¬ i < cc)]
        show (if chunkName identifier i = chunkName identifier i then none
          else applyEvents _ m (chunkName identifier i)) = none
        rw [if_pos rfl]

/-- C6: a successful stateless `set` whose encrypted string is `e` (chunk
count `cc = ceil(len(e) / 3072)`) leaves, for any prior cookie state, chunk
cookie `i` holding the new chunk value for every `i < cc`, and deleted for
every `cc ≤ i < 10`: no chunk cookie beyond the new count survives within
the scan window. -/
theorem stateless_set_frame (cfg : SessionConfig) (ss : Option String)
    (sec : Option Bool) (encrypt : String → StateData → Int → String) (now : Int)
    (identifier : String) (sd : StateData) (e : String)
    (henc : encrypt identifier sd
      (now + calculateMaxAge cfg now sd.internal.createdAt) = e)
    (m : String → Option String) (evs : List Event)
    (hok : statelessSet cfg ss sec encrypt now identifier sd = Except.ok evs) :
    ∀ i, i < 10 → applyEvents evs m (chunkName identifier i) =
      if i < ceilDiv e.length chunkSize then some (chunkValue e i) else none := by
  simp only [statelessSet, henc] at hok
  rcases Nat.lt_or_ge 10 (ceilDiv e.length chunkSize) with hgt | hle
  · rw [if_pos hgt] at hok
    exact absurd hok (by simp)
  · rw [if_neg (by omega)] at hok
    rw [Except.ok.injEq] at hok
    subst hok
    intro i hi
    exact applyEvents_chunk_window identifier (ceilDiv e.length chunkSize)
      (chunkValue e) _ m 10 (by omega) i hi

/-- Witness for C6: a one-chunk `set` ("abc") over a stale cookie state
leaves chunk cookie 5 deleted. -/
theorem stateless_set_frame_witness :
    applyEvents
      [Event.setCookie ("s.0") ("abc") ⟨true, ("lax"), ("/"), some true, 86400⟩,
       Event.deleteCookie ("s.1"), Event.deleteCookie ("s.2"), Event.deleteCookie ("s.3"),
       Event.deleteCookie ("s.4"), Event.deleteCookie ("s.5"), Event.deleteCookie ("s.6"),
       Event.deleteCookie ("s.7"), Event.deleteCookie ("s.8"), Event.deleteCookie ("s.9")]
      (fun _ => some ("stale")) (chunkName ("s") 5) = none := by
  have h := stateless_set_frame ⟨true, 259200, 86400⟩ none none (fun _ _ _ => ("abc")) 0 ("s")
    ⟨⟨0⟩, ("")⟩ ("abc") rfl (fun _ => some ("stale"))
    [Event.setCookie ("s.0") ("abc") ⟨true, ("lax"), ("/"), some true, 86400⟩,
     Event.deleteCookie ("s.1"), Event.deleteCookie ("s.2"), Event.deleteCookie ("s.3"),
     Event.deleteCookie ("s.4"), Event.deleteCookie ("s.5"), Event.deleteCookie ("s.6"),
     Event.deleteCookie ("s.7"), Event.deleteCookie ("s.8"), Event.deleteCookie ("s.9")]
    rfl 5 (by decide)
  exact h.trans (by decide)

/-- C5 (amended): the stateless `get` reads exactly the fixed chunk cookie
names `identifier.0` … `identifier.9`, in ascending index order — its
result depends only on those ten cookies; when none of them is present it
returns the empty no-session result without error and without consulting
decryption; when the reassembled string is nonempty it hands exactly that
string to decryption. -/
theorem stateless_get_fixed_window (decrypt decrypt' : String → String → Except String StateData)
    (g g' : String → Option String) (identifier : String) :
    ((∀ i, i < 10 → g (chunkName identifier i) = g' (chunkName identifier i)) →
      statelessGet decrypt g identifier = statelessGet decrypt g' identifier) ∧
    ((∀ i, i < 10 → g (chunkName identifier i) = none) →
      statelessGet decrypt g identifier = Except.ok none ∧
      statelessGet decrypt g identifier = statelessGet decrypt' g identifier) ∧
    (statelessGetEncrypted g identifier ≠ ("") →
      statelessGet decrypt g identifier =
        (decrypt identifier (statelessGetEncrypted g identifier)).map some) := by
  refine ⟨fun hagree => ?_, fun hnone => ?_, fun hne => ?_⟩
  · have he : statelessGetEncrypted g identifier = statelessGetEncrypted g' identifier := by
      unfold statelessGetEncrypted
      congr 1
      exact List.map_congr_left fun a ha => by rw [hagree a (List.mem_range.mp ha)]
    simp only [statelessGet, he]
  · have he : statelessGetEncrypted g identifier = ("") := by
      unfold statelessGetEncrypted
      have h1 : (List.range 10).map (fun i => ((g (chunkName identifier i)).getD (""))) =
          (List.range 10).map (fun _ => ("")) :=
        List.map_congr_left fun a ha => by rw [hnone a (List.mem_range.mp ha)]; rfl
      rw [h1]
      decide
    constructor
    · simp only [statelessGet, he, if_pos]
    · simp only [statelessGet, he, if_pos]
  · simp only [statelessGet, if_neg hne]

/-- Witness for C5: with no chunk cookie at all, `get` reports no session
without consulting decryption. -/
theorem stateless_get_fixed_window_witness :
    statelessGet (fun _ _ => Except.error ("boom")) (fun _ => none) ("s") =
      Except.ok none :=
  ((stateless_get_fixed_window (fun _ _ => Except.error ("boom"))
    (fun _ _ => Except.error ("boom2")) (fun _ => none) (fun _ => none)
    ("s")).2.1 (fun _ _ => rfl)).1

/-- Counterexample for C5 as stated: with request cookies `s.0 = "A"` and
`s.10 = "B"`, the name `s.10` matches `identifier + "." + <digits>`, so the
claimed enumeration (matching names sorted numerically by index)
concatenates to "AB"; the code's `get` scans only indices 0–9 and hands
exactly "A" to decryption. -/
theorem stateless_get_digit_scan_counterexample :
    specOrderedChunkConcat [(("s.0"), ("A")), (("s.10"), ("B"))] ("s") = ("AB") ∧
    statelessGetEncrypted (lookupCookie [(("s.0"), ("A")), (("s.10"), ("B"))]) ("s") = ("A") ∧
    statelessGet (fun _ e => Except.ok ⟨⟨0⟩, e⟩)
        (lookupCookie [(("s.0"), ("A")), (("s.10"), ("B"))]) ("s") =
      Except.ok (some ⟨⟨0⟩, ("A")⟩) ∧
    ("A") ≠ ("AB") := by
  refine ⟨by decide, by decide, ?_, by decide⟩
  have he : statelessGetEncrypted (lookupCookie [(("s.0"), ("A")), (("s.10"), ("B"))]) ("s") =
      ("A") := by decide
  simp only [statelessGet, he]
  rfl

/-- C1: a stateful `set` with `removeIfExists` while the handle cookie is
present and decrypts to a (nonempty) old session id sends the external store
the delete of the old id strictly before the set of the new id; the new id
is the freshly generated one, which by the freshness of `generateId` (here a
hypothesis on the id supply) is distinct from the old id. -/
theorem stateful_set_regenerate_order (cfg : SessionConfig) (env : StatefulEnv)
    (ss : Option String) (sec : Option Bool) (now : Int) (identifier : String)
    (sd : StateData) (v oldId : String)
    (hcookie : env.getCookie identifier = some v) (hv : v ≠ (""))
    (hdec : env.decrypt identifier v = Except.ok oldId) (hold : oldId ≠ (""))
    (hgen : env.gen 0 ≠ ("")) (hfresh : env.gen 0 ≠ oldId) :
    statefulSet cfg env ss sec now identifier sd true =
      Except.ok [Event.storeDelete oldId,
        Event.storeSet (env.gen 0) sd,
        Event.setCookie identifier
          (env.encrypt identifier (env.gen 0)
            (now + calculateMaxAge cfg now sd.internal.createdAt))
          { httpOnly := true, sameSite := ss.getD ("lax"), path := ("/"),
            secure := some (sec.getD true),
            maxAge := calculateMaxAge cfg now sd.internal.createdAt }] ∧
    (∃ di si, di < si ∧
      [Event.storeDelete oldId, Event.storeSet (env.gen 0) sd,
        Event.setCookie identifier
          (env.encrypt identifier (env.gen 0)
            (now + calculateMaxAge cfg now sd.internal.createdAt))
          { httpOnly := true, sameSite := ss.getD ("lax"), path := ("/"),
            secure := some (sec.getD true),
            maxAge := calculateMaxAge cfg now sd.internal.createdAt }].get? di =
        some (Event.storeDelete oldId) ∧
      [Event.storeDelete oldId, Event.storeSet (env.gen 0) sd,
        Event.setCookie identifier
          (env.encrypt identifier (env.gen 0)
            (now + calculateMaxAge cfg now sd.internal.createdAt))
          { httpOnly := true, sameSite := ss.getD ("lax"), path := ("/"),
            secure := some (sec.getD true),
            maxAge := calculateMaxAge cfg now sd.internal.createdAt }].get? si =
        some (Event.storeSet (env.gen 0) sd)) ∧
    env.gen 0 ≠ oldId := by
  refine ⟨?_, ⟨0, 1, by omega, rfl, rfl⟩, hfresh⟩
  simp [statefulSet, getSessionId, Except.map, hcookie, hv, hdec, hold, hgen]

/-- C7: a stateful `get` whose handle cookie decrypts to a session id that
the external store knows nothing about deletes the dangling handle cookie
and reports no session; when the store returns a payload, the handle cookie
is left alone and the payload is returned. -/
theorem stateful_get_dangling_handle (env : StatefulEnv) (identifier v sid : String)
    (hcookie : env.getCookie identifier = some v) (hv : v ≠ (""))
    (hdec : env.decrypt identifier v = Except.ok sid) (hsid : sid ≠ ("")) :
    (env.storeGet sid = none →
      statefulGet env identifier =
        Except.ok (none, [Event.storeGet sid, Event.deleteCookie identifier])) ∧
    (∀ sd, env.storeGet sid = some sd →
      statefulGet env identifier = Except.ok (some sd, [Event.storeGet sid])) := by
  constructor
  · intro h
    simp [statefulGet, getSessionId, Except.map, hcookie, hv, hdec, hsid, h]
  · intro sd h
    simp [statefulGet, getSessionId, Except.map, hcookie, hv, hdec, hsid, h]

/-- C10: when the handle cookie is present but its decryption fails, every
stateful operation propagates the decryption error; in this model an error
result carries no effect trace, mirroring that the code throws inside
`getSessionId` before any external-store call or cookie write. -/
theorem stateful_decrypt_error_propagates (cfg : SessionConfig) (env : StatefulEnv)
    (ss : Option String) (sec : Option Bool) (now : Int) (identifier : String)
    (sd : StateData) (removeIfExists : Bool) (v e : String)
    (hcookie : env.getCookie identifier = some v) (hv : v ≠ (""))
    (hdec : env.decrypt identifier v = Except.error e) :
    statefulSet cfg env ss sec now identifier sd removeIfExists = Except.error e ∧
    statefulGet env identifier = Except.error e ∧
    statefulDelete env identifier = Except.error e := by
  refine ⟨?_, ?_, ?_⟩ <;>
    simp [statefulSet, statefulGet, statefulDelete, getSessionId, Except.map, hcookie, hv, hdec]

/-- Witness for C1: a concrete regenerate `set` produces delete-old, then
set-new, then the handle cookie write. -/
theorem stateful_set_regenerate_order_witness :
    statefulSet ⟨true, 259200, 86400⟩
      ⟨fun _ => some ("h"), fun _ _ => Except.ok ("old"), fun _ id _ => id,
        fun _ => none, fun _ => ("new")⟩ none none 0 ("sid") ⟨⟨0⟩, ("p")⟩ true =
      Except.ok [Event.storeDelete ("old"), Event.storeSet ("new") ⟨⟨0⟩, ("p")⟩,
        Event.setCookie ("sid") ("new") ⟨true, ("lax"), ("/"), some true, 86400⟩] :=
  (stateful_set_regenerate_order ⟨true, 259200, 86400⟩
    ⟨fun _ => some ("h"), fun _ _ => Except.ok ("old"), fun _ id _ => id,
      fun _ => none, fun _ => ("new")⟩ none none 0 ("sid") ⟨⟨0⟩, ("p")⟩
    ("h") ("old") rfl (by decide) rfl (by decide) (by decide) (by decide)).1

/-- Witness for C7: a dangling handle is deleted and no session returned. -/
theorem stateful_get_dangling_handle_witness :
    statefulGet ⟨fun _ => some ("h"), fun _ _ => Except.ok ("old"), fun _ id _ => id,
      fun _ => none, fun _ => ("new")⟩ ("sid") =
      Except.ok (none, [Event.storeGet ("old"), Event.deleteCookie ("sid")]) :=
  (stateful_get_dangling_handle
    ⟨fun _ => some ("h"), fun _ _ => Except.ok ("old"), fun _ id _ => id,
      fun _ => none, fun _ => ("new")⟩ ("sid") ("h") ("old")
    rfl (by decide) rfl (by decide)).1 rfl

/-- Witness for C10: a failing handle decryption makes `get` propagate the
error with no effects. -/
theorem stateful_decrypt_error_propagates_witness :
    statefulGet ⟨fun _ => some ("h"), fun _ _ => Except.error ("bad"), fun _ id _ => id,
      fun _ => none, fun _ => ("new")⟩ ("sid") = Except.error ("bad") :=
  (stateful_decrypt_error_propagates ⟨true, 259200, 86400⟩
    ⟨fun _ => some ("h"), fun _ _ => Except.error ("bad"), fun _ id _ => id,
      fun _ => none, fun _ => ("new")⟩ none none 0 ("sid") ⟨⟨0⟩, ("p")⟩ false
    ("h") ("bad") rfl (by decide) rfl).2.1
